import Mathlib

/-!
# openclfract: the OpenCL texture object and the GL view

A shallow embedding of `src/openclfract/openclpbo.{h,cpp}` and of the view
handling of `src/openclfract/glview.cpp`.

* `cl_uint` / `GLuint` fields are natural numbers below `2 ^ 32`; unsigned
  arithmetic is written with an explicit `% 2 ^ 32`, and the conversions between
  `int` and `cl_uint` are `toInt` / `toUInt`.
* `double` / `cl_float` values are rationals: the arithmetic is exact.
* Calls into the OpenGL / OpenCL drivers are recorded, in program order, in a
  trace; what a driver call reports back (an error code, a fresh texture name)
  is an argument of the embedded function.
* A C++ exception is the `Result.thrown` outcome; the object keeps the fields as
  they were assigned up to the `throw`.
-/

namespace OpenCLFract

/-! ## Machine integers -/

/-- Largest value of `int`. -/
def INT_MAX : Nat := 2147483647

/-- Conversion of a `cl_uint` value to `int` (two's complement). -/
def toInt (n : Nat) : Int :=
  if n % 4294967296 < 2147483648 then ((n % 4294967296 : Nat) : Int)
  else ((n % 4294967296 : Nat) : Int) - 4294967296

/-- Conversion of an `int` value to `cl_uint`. -/
def toUInt (z : Int) : Nat := (z % 4294967296).toNat

/-- Addition of two `cl_uint` values. -/
def uadd (a b : Nat) : Nat := (a + b) % 4294967296

/-- Subtraction of two `cl_uint` values. -/
def usub (a b : Nat) : Nat := (a % 4294967296 + 4294967296 - b % 4294967296) % 4294967296

/-- Remainder of two `cl_uint` values. -/
def umod (a b : Nat) : Nat := (a % 4294967296) % (b % 4294967296)

/-! ## Data model -/

/-- The constant `CL_SUCCESS`. -/
def CL_SUCCESS : Int := 0

/-- The enumerator `OpenCLPBO::pool_size`. -/
def pool_size : Nat := 16

/-- The enumeration `OpenCLPBO::Color`. -/
inductive Color where
  | Poly
  | Trig
  deriving DecidableEq, Repr

/-- A `cl_float4`, components `s[0]` to `s[3]`. -/
structure Float4 where
  s0 : ℚ
  s1 : ℚ
  s2 : ℚ
  s3 : ℚ
  deriving DecidableEq, Repr

/-- The four scalars of a view rectangle: `minRe`, `maxRe`, `minIm`, `maxIm`. -/
structure View4 where
  minRe : ℚ
  maxRe : ℚ
  minIm : ℚ
  maxIm : ℚ
  deriving DecidableEq, Repr

/-- A `cl_mem` made by `clCreateFromGLTexture2D`: the GL texture it wraps and the
size of that texture's image. -/
structure MemObject where
  texture : Nat
  width : Int
  height : Int
  deriving DecidableEq, Repr

/-- A device buffer behind `cl_color_`: its capacity in `cl_float4` entries and its
contents, `none` while nothing has been written to it. -/
structure ColorBuffer where
  entries : Nat
  data : Option (List Float4)
  deriving DecidableEq, Repr

/-- The `std::runtime_error` that `check_error` throws; its message is
`name ( err )`. -/
structure RuntimeError where
  name : String
  err : Int
  deriving DecidableEq, Repr

/-- Driver calls, as they are recorded in the trace. -/
inductive Event where
  | clReleaseMemObject (m : MemObject)
  | glDeleteTextures (id : Nat)
  | glGenTextures (id : Nat)
  | glBindTexture (id : Nat)
  | glTexImage2D (width height : Int)
  | glTexParameteri
  | clCreateFromGLTexture2D (id : Nat)
  | writeView (view : View4) (bytes : Nat)
  | glFinish
  | clEnqueueAcquireGLObjects (m : Option MemObject)
  | setArgs (width height iterations : Nat)
  | enqueueNDRangeKernel (workw workh localw localh : Int)
  | clEnqueueReleaseGLObjects (m : Option MemObject)
  | queueFinish
  | writeColor (entries : Nat) (table : List Float4)
  deriving DecidableEq, Repr

/-- Outcome of a member function: a normal return, an exception, or undefined
behaviour of the C++ program. -/
inductive Result (α : Type) where
  | ok (a : α)
  | thrown (e : RuntimeError)
  | undefined
  deriving DecidableEq, Repr

/-- The data members of `OpenCLPBO` (`openclpbo.h`), followed by the driver state
its calls act on: the names of the GL texture objects that exist, and the trace. -/
structure OpenCLPBO where
  image_width_ : Nat
  image_height_ : Nat
  max_iterations_ : Nat
  color_ : Color
  double_precision_ : Bool
  cl_color_ : Option ColorBuffer
  viewd_ : View4
  viewf_ : View4
  cl_buffer_ : Option MemObject
  textureId_ : Nat
  gl_textures : List Nat
  trace : List Event
  deriving DecidableEq, Repr

/-- The constructor `OpenCLPBO::OpenCLPBO`. It does not initialise `color_`; the
value that member happens to hold is the argument. -/
def OpenCLPBO.new (color : Color) : OpenCLPBO :=
  { image_width_ := 0
    image_height_ := 0
    max_iterations_ := 500
    color_ := color
    double_precision_ := false
    cl_color_ := none
    viewd_ := ⟨0, 0, 0, 0⟩
    viewf_ := ⟨0, 0, 0, 0⟩
    cl_buffer_ := none
    textureId_ := 0
    gl_textures := []
    trace := [] }

/-- Append a driver call to the trace. -/
def OpenCLPBO.emit (s : OpenCLPBO) (es : List Event) : OpenCLPBO :=
  { s with trace := s.trace ++ es }

/-- The function `OpenCLPBO::check_error`: `some e` when it throws `e`. -/
def check_error (err : Int) (name : String) : Option RuntimeError :=
  if err ≠ CL_SUCCESS then some ⟨name, err⟩ else none

/-! ## Interop surface -/

/-- What the drivers report during `createTexture`: the name `glGenTextures`
hands out, the value of `glGetError()`, and the error code of
`clCreateFromGLTexture2D` (which returns a null handle unless that is
`CL_SUCCESS`). -/
structure TextureEnv where
  newId : Nat
  glError : Int
  clError : Int

/-- The function `OpenCLPBO::deleteTexture`. -/
def deleteTexture (s : OpenCLPBO) : OpenCLPBO :=
  let s1 :=
    match s.cl_buffer_ with
    | some m => { s.emit [.clReleaseMemObject m] with cl_buffer_ := none }
    | none => s
  { s1.emit [.glDeleteTextures s1.textureId_] with
    gl_textures := s1.gl_textures.filter (fun t => t ≠ s1.textureId_) }

/-- The function `OpenCLPBO::createTexture`. -/
def createTexture (env : TextureEnv) (s : OpenCLPBO) : OpenCLPBO × Result Unit :=
  let s1 := deleteTexture s
  -- glGenTextures(1, &textureId_); glBindTexture(GL_TEXTURE_2D, textureId_)
  let s2 := { s1.emit [.glGenTextures env.newId, .glBindTexture env.newId] with
    textureId_ := env.newId
    gl_textures := env.newId :: s1.gl_textures }
  -- glTexImage2D takes the two cl_uint members as GLsizei
  let s3 := s2.emit [.glTexImage2D (toInt s2.image_width_) (toInt s2.image_height_)]
  match check_error env.glError "Out of video memory" with
  | some e => (s3, .thrown e)
  | none =>
    let s4 := s3.emit [.glTexParameteri, .glTexParameteri]
    let s5 := { s4.emit [.clCreateFromGLTexture2D s4.textureId_, .glBindTexture 0] with
      cl_buffer_ :=
        if env.clError = CL_SUCCESS then
          some ⟨s4.textureId_, toInt s4.image_width_, toInt s4.image_height_⟩
        else none }
    match check_error env.clError "clCreateFromGLTexture2D" with
    | some e => (s5, .thrown e)
    | none => (s5, .ok ())

/-- The function `OpenCLPBO::resize`. -/
def resize (env : TextureEnv) (width height : Int) (s : OpenCLPBO) :
    OpenCLPBO × Result Unit :=
  createTexture env { s with image_width_ := toUInt width, image_height_ := toUInt height }

/-! ## Compute dispatcher -/

/-- What the driver reports during `calculate`: the error codes of the view upload,
of the acquire, of the kernel launch and of the release, and the elapsed time. -/
structure CalcEnv where
  writeError : Int
  acquireError : Int
  launchError : Int
  releaseError : Int
  elapsed : Int

/-- The expression `dim + pool_size - (dim % pool_size)` of `calculate`, on a
`cl_uint` member `dim`, stored into the `int` variable `workw` / `workh`. -/
def globalWorkSize (dim : Nat) : Int :=
  toInt (usub (uadd dim pool_size) (umod dim pool_size))

/-- The function `OpenCLPBO::calculate`. -/
def calculate (env : CalcEnv) (s : OpenCLPBO) : OpenCLPBO × Result Int :=
  match check_error (if s.cl_buffer_ ≠ none then CL_SUCCESS else -1)
      "Texture buffer not bound" with
  | some e => (s, .thrown e)
  | none =>
  match check_error (if s.cl_color_ ≠ none then CL_SUCCESS else -1)
      "Color buffer not bound" with
  | some e => (s, .thrown e)
  | none =>
  let view := if s.double_precision_ then s.viewd_ else s.viewf_
  let view_size := if s.double_precision_ then 8 * 4 else 4 * 4
  let s1 := s.emit [.writeView view view_size]
  match check_error env.writeError "Failed to allocate buffer" with
  | some e => (s1, .thrown e)
  | none =>
    let s2 := s1.emit [.glFinish, .clEnqueueAcquireGLObjects s1.cl_buffer_]
    match check_error env.acquireError "AcquireGLObjects failed" with
    | some e => (s2, .thrown e)
    | none =>
    let workw := globalWorkSize s2.image_width_
    let workh := globalWorkSize s2.image_height_
    let s3 := s2.emit [.setArgs s2.image_width_ s2.image_height_ s2.max_iterations_,
      .enqueueNDRangeKernel workw workh pool_size pool_size]
    match check_error env.launchError "enqueueNDRangeKernel failed" with
    | some e => (s3, .thrown e)
    | none =>
    let s4 := s3.emit [.clEnqueueReleaseGLObjects s3.cl_buffer_]
    match check_error env.releaseError "ReleaseGLObjects failed" with
    | some e => (s4, .thrown e)
    | none => (s4.emit [.queueFinish], .ok env.elapsed)

/-! ## Colour table -/

/-- What the driver reports during `precomputeColor`: the error code of the
`cl::Buffer` constructor (the new handle is null unless that is `CL_SUCCESS`) and
the error code of the blocking `enqueueWriteBuffer`. -/
structure ColorEnv where
  createError : Int
  writeError : Int

/-- The function `OpenCLPBO::getColorPoly`. -/
def getColorPoly (s : OpenCLPBO) (x : Nat) : Float4 :=
  let t : ℚ := (x : ℚ) / (s.max_iterations_ : ℚ)
  { s0 := 9 * (1 - t) * t * t * t
    s1 := 15 * (1 - t) * (1 - t) * t * t
    s2 := 17 / 2 * (1 - t) * (1 - t) * (1 - t) * t
    s3 := 1 }

/-- The function `OpenCLPBO::getColorTrig`. -/
def getColorTrig (s : OpenCLPBO) (x : Nat) : Float4 :=
  let t : ℚ := (x : ℚ) / (s.max_iterations_ : ℚ)
  { s0 := 17 / 2 * (1 - t) * (1 - t) * (1 - t) * t
    s1 := 15 * (1 - t) * (1 - t) * t * t
    s2 := 9 * (1 - t) * t * t * t
    s3 := 1 }

/-- The loop `for(int i = 0; i < max_iterations_; ++i)` of `precomputeColor`, from
counter value `i` on. `table` holds the entries written so far, `table[0]` to
`table[i-1]`, so the assignment to `table[i]` appends. The counter is an `int`:
the result is `none` when `++i` would leave the range of `int`, which is undefined
behaviour. -/
def precomputeLoop (s : OpenCLPBO) (i : Nat) (table : List Float4) :
    Option (List Float4) :=
  if i < s.max_iterations_ then
    let table1 :=
      match s.color_ with
      | .Poly => table ++ [getColorPoly s i]
      | .Trig => table ++ [getColorTrig s i]
    if i + 1 ≤ INT_MAX then precomputeLoop s (i + 1) table1 else none
  else some table
termination_by s.max_iterations_ - i

/-- The function `OpenCLPBO::precomputeColor`. -/
def precomputeColor (env : ColorEnv) (color : Color) (s : OpenCLPBO) :
    OpenCLPBO × Result Unit :=
  let s1 := { s with color_ := color }
  let SIZE := s1.max_iterations_
  match precomputeLoop s1 0 [] with
  | none => (s1, .undefined)
  | some table =>
    -- cl_color_ = cl::Buffer(...); err = queue_.enqueueWriteBuffer(cl_color_, ...)
    let created : Option ColorBuffer :=
      if env.createError = CL_SUCCESS then some ⟨SIZE, none⟩ else none
    let written : Option ColorBuffer :=
      if env.writeError = CL_SUCCESS then
        created.map (fun b => { b with data := some table })
      else created
    let s2 := { s1.emit [.writeColor SIZE table, .queueFinish] with cl_color_ := written }
    match check_error env.writeError "Precompute Color Failure" with
    | some e => (s2, .thrown e)
    | none => (s2, .ok ())

/-- The function `OpenCLPBO::max_iterations(cl_uint)`. -/
def max_iterations (env : ColorEnv) (val : Nat) (s : OpenCLPBO) :
    OpenCLPBO × Result Unit :=
  if val < 100 then (s, .ok ())
  else precomputeColor env s.color_ { s with max_iterations_ := val }

/-- The function `OpenCLPBO::setView`. -/
def OpenCLPBO.setView (s : OpenCLPBO) (minRe maxRe minIm maxIm : ℚ) : OpenCLPBO :=
  if s.double_precision_ then { s with viewd_ := ⟨minRe, maxRe, minIm, maxIm⟩ }
  else { s with viewf_ := ⟨minRe, maxRe, minIm, maxIm⟩ }

/-! ## The GL view -/

/-- The data members of `GLView` (`glview.h`) that the view handling reads or
writes, and the widget's `width()` and `height()`. -/
structure GLView where
  pbo_ : OpenCLPBO
  color_ : Color
  samples_ : Int
  minRe_ : ℚ
  maxRe_ : ℚ
  minIm_ : ℚ
  maxIm_ : ℚ
  width : Int
  height : Int
  lastPos_ : Int × Int

/-- The constructor `GLView::GLView`, for a widget of the given size; `pboColor` is
the value the uninitialised `pbo_.color_` holds. -/
def GLView.new (pboColor : Color) (width height : Int) : GLView :=
  { pbo_ := OpenCLPBO.new pboColor
    color_ := .Poly
    samples_ := 0
    minRe_ := -1
    maxRe_ := 1
    minIm_ := -1
    maxIm_ := 1
    width := width
    height := height
    lastPos_ := (0, 0) }

/-- The rectangle that `GLView::setView` passes to `OpenCLPBO::setView`. -/
def GLView.setViewArgs (v : GLView) : View4 :=
  if v.width > v.height then
    let h : ℚ := v.maxIm_ - v.minIm_
    let fact : ℚ := (h - h / (v.width : ℚ) * (v.height : ℚ)) * (1 / 2)
    ⟨v.minRe_, v.maxRe_, v.minIm_ + fact, v.maxIm_ - fact⟩
  else
    let w : ℚ := v.maxRe_ - v.minRe_
    let fact : ℚ := (w - w / (v.height : ℚ) * (v.width : ℚ)) * (1 / 2)
    ⟨v.minRe_ + fact, v.maxRe_ - fact, v.minIm_, v.maxIm_⟩

/-- The function `GLView::setView`. -/
def GLView.setView (v : GLView) : GLView :=
  let r := v.setViewArgs
  { v with pbo_ := v.pbo_.setView r.minRe r.maxRe r.minIm r.maxIm }

/-- The step count `event->delta() / 8 / 15` of `GLView::wheelEvent`, in `int`
division. -/
def wheelSteps (delta : Int) : Int := (delta.tdiv 8).tdiv 15

/-- The function `GLView::wheelEvent`, up to the repaint it requests. -/
def GLView.wheelEvent (delta : Int) (v : GLView) : GLView :=
  let steps := wheelSteps delta
  let scale : ℚ := 1 / 20 * (v.maxRe_ - v.minRe_) * (steps : ℚ)
  let kk : ℚ := (v.minIm_ - v.maxIm_) / (v.maxRe_ - v.minRe_)
  let minRe1 := v.minRe_ + scale
  let maxIm1 := kk * (minRe1 - v.maxRe_) + v.minIm_
  let maxRe1 := v.maxRe_ - scale
  let minIm1 := kk * (maxRe1 - minRe1) + maxIm1
  { v with minRe_ := minRe1, maxRe_ := maxRe1, minIm_ := minIm1, maxIm_ := maxIm1 }

/-- The function `GLView::mouseMoveEvent` for a cursor position `(x, y)`, up to the
repaint it requests; `leftButton` is `event->buttons() & Qt::LeftButton`. -/
def GLView.mouseMoveEvent (x y : Int) (leftButton : Bool) (v : GLView) : GLView :=
  let dx : Int := x - v.lastPos_.1
  let dy : Int := y - v.lastPos_.2
  let v1 : GLView :=
    if leftButton then
      let scaledX : ℚ := (dx : ℚ) / (v.width : ℚ) * (v.maxRe_ - v.minRe_)
      let scaledY : ℚ := (dy : ℚ) / (v.height : ℚ) * (v.maxIm_ - v.minIm_)
      { v with
        maxRe_ := v.maxRe_ - scaledX
        minRe_ := v.minRe_ - scaledX
        maxIm_ := v.maxIm_ + scaledY
        minIm_ := v.minIm_ + scaledY }
    else v
  { v1 with lastPos_ := (x, y) }

/-- The keys of `GLView::keyPressEvent` that reach the colour table. -/
inductive Key where
  | Key_Plus
  | Key_Minus
  | Key_C
  deriving DecidableEq, Repr

/-- The function `GLView::keyPressEvent` on the keys `+`, `-` and `C`, up to the
repaint it requests. -/
def GLView.keyPressEvent (env : ColorEnv) (key : Key) (v : GLView) :
    GLView × Result Unit :=
  match key with
  | .Key_Plus =>
    let r := max_iterations env (uadd v.pbo_.max_iterations_ 100) v.pbo_
    ({ v with pbo_ := r.1 }, r.2)
  | .Key_Minus =>
    let r := max_iterations env (usub v.pbo_.max_iterations_ 100) v.pbo_
    ({ v with pbo_ := r.1 }, r.2)
  | .Key_C =>
    let color := if v.color_ = .Poly then Color.Trig else Color.Poly
    let r := precomputeColor env color v.pbo_
    ({ v with color_ := color, pbo_ := r.1 }, r.2)

/-! ## Reachable states of the view -/

/-- The states of the view reachable from construction by `+` and `-` key presses
and by calls `max_iterations(val)` on its `pbo_`, with `val` a `cl_uint`, whatever
the driver reports. A call that throws, or whose behaviour is undefined, leaves the
object as it was at that point. -/
inductive Reachable : GLView → Prop where
  | init (pboColor : Color) (width height : Int) :
      Reachable (GLView.new pboColor width height)
  | plus (env : ColorEnv) {v : GLView} :
      Reachable v → Reachable (v.keyPressEvent env .Key_Plus).1
  | minus (env : ColorEnv) {v : GLView} :
      Reachable v → Reachable (v.keyPressEvent env .Key_Minus).1
  | call (env : ColorEnv) (val : Nat) (hval : val < 2 ^ 32) {v : GLView} :
      Reachable v → Reachable { v with pbo_ := (max_iterations env val v.pbo_).1 }

/-- The states of the view in which it holds a view rectangle: those reached from
construction by wheel events, mouse moves, key presses, repaints (`setView`) and
changes of the widget size. A wheel event on a rectangle of zero real span, and a
drag in a widget of zero width or height, divide by zero in `double`; what they
leave behind is not a rectangle of numbers, and they are not steps here. -/
inductive ViewReachable : GLView → Prop where
  | init (pboColor : Color) (width height : Int) :
      ViewReachable (GLView.new pboColor width height)
  | wheel (delta : Int) {v : GLView} (hspan : v.maxRe_ ≠ v.minRe_) :
      ViewReachable v → ViewReachable (v.wheelEvent delta)
  | mouse (x y : Int) (leftButton : Bool) {v : GLView}
      (hsize : leftButton = true → v.width ≠ 0 ∧ v.height ≠ 0) :
      ViewReachable v → ViewReachable (v.mouseMoveEvent x y leftButton)
  | key (env : ColorEnv) (k : Key) {v : GLView} :
      ViewReachable v → ViewReachable (v.keyPressEvent env k).1
  | paint {v : GLView} :
      ViewReachable v → ViewReachable v.setView
  | resized (width height : Int) {v : GLView} :
      ViewReachable v → ViewReachable { v with width := width, height := height }

/-! ## Specification vocabulary -/

/-- The number `g` is the smallest multiple of `pool_size` that is at least `d`. -/
def SmallestMultipleAtLeast (d : Nat) (g : Int) : Prop :=
  (pool_size : Int) ∣ g ∧ (d : Int) ≤ g ∧
    ∀ m : Int, (pool_size : Int) ∣ m → (d : Int) ≤ m → g ≤ m

/-- The number `g` is the smallest multiple of `pool_size` that is greater than `d`. -/
def SmallestMultipleAbove (d : Nat) (g : Int) : Prop :=
  (pool_size : Int) ∣ g ∧ (d : Int) < g ∧
    ∀ m : Int, (pool_size : Int) ∣ m → (d : Int) < m → g ≤ m

/-- The two messages with which `calculate` reports a handle that is not bound. -/
def RuntimeError.notBound (e : RuntimeError) : Prop :=
  e.name = "Texture buffer not bound" ∨ e.name = "Color buffer not bound"

/-- The closed form of a palette entry at position `t`, as the specification writes
it: `(9(1-t)t³, 15(1-t)²t², 8.5(1-t)³t, 1)` for `Poly`, and the same with the first
and third components exchanged for `Trig`. -/
def paletteEntry (c : Color) (t : ℚ) : Float4 :=
  match c with
  | .Poly => ⟨9 * (1 - t) * t ^ 3, 15 * (1 - t) ^ 2 * t ^ 2, 17 / 2 * (1 - t) ^ 3 * t, 1⟩
  | .Trig => ⟨17 / 2 * (1 - t) ^ 3 * t, 15 * (1 - t) ^ 2 * t ^ 2, 9 * (1 - t) * t ^ 3, 1⟩

/-! ## Launch geometry -/

/-- Without wrap-around the work size is `d + 16 - d % 16`. -/
theorem globalWorkSize_eq (d : Nat) (h : d + 16 < 2 ^ 31) :
    globalWorkSize d = ((d + 16 - d % 16 : Nat) : Int) := by
  have h1 : d + 16 < 2147483648 := by simpa using h
  have hu : usub (uadd d pool_size) (umod d pool_size) = d + 16 - d % 16 := by
    unfold usub uadd umod pool_size
    simp only [Nat.reduceMod]
    omega
  unfold globalWorkSize toInt
  rw [hu]
  split_ifs with hlt
  · congr 1
    omega
  · exfalso
    omega

/-- C1 fails as stated: at `d = 16`, itself a multiple of 16, the work size is 32,
which is not the smallest multiple of 16 that is at least 16; and at the largest
`cl_uint` value the unsigned sum wraps around to 0. -/
theorem C1_smallest_multiple_fails :
    globalWorkSize 16 = 32 ∧ ¬ SmallestMultipleAtLeast 16 (globalWorkSize 16) ∧
      globalWorkSize 4294967295 = 0 ∧
      ¬ SmallestMultipleAtLeast 4294967295 (globalWorkSize 4294967295) := by
  have h16 : globalWorkSize 16 = 32 := by decide
  have hmax : globalWorkSize 4294967295 = 0 := by decide
  refine ⟨h16, ?_, hmax, ?_⟩
  · rintro ⟨_, _, hmin⟩
    have := hmin 16 (by simp [pool_size]) (by norm_num)
    rw [h16] at this
    omega
  · rintro ⟨_, hle, _⟩
    rw [hmax] at hle
    norm_num at hle

/-- C1, amended: for a dimension `d` with `d + 16 < 2 ^ 31` the work size is the
smallest multiple of 16 that is greater than `d`; it is the smallest multiple of 16
that is at least `d` exactly when `d` is not itself a multiple of 16. -/
theorem C1_smallest_multiple_above (d : Nat) (h : d + 16 < 2 ^ 31) :
    SmallestMultipleAbove d (globalWorkSize d) ∧
      (SmallestMultipleAtLeast d (globalWorkSize d) ↔ ¬ 16 ∣ d) := by
  have h1 : d + 16 < 2147483648 := by simpa using h
  have hg := globalWorkSize_eq d h
  have hdvd : (pool_size : Int) ∣ globalWorkSize d := by
    rw [hg]
    refine Int.natCast_dvd_natCast.mpr ?_
    unfold pool_size
    omega
  have habove : ∀ m : Int, (pool_size : Int) ∣ m → (d : Int) < m → globalWorkSize d ≤ m := by
    rintro m ⟨k, rfl⟩ hlt
    rw [hg]
    simp only [pool_size] at hlt ⊢
    omega
  refine ⟨⟨hdvd, by rw [hg]; omega, habove⟩, ?_⟩
  constructor
  · rintro ⟨_, _, hmin⟩ hd
    have := hmin d (by simpa [pool_size] using Int.natCast_dvd_natCast.mpr hd) le_rfl
    rw [hg] at this
    omega
  · intro hd
    refine ⟨hdvd, by rw [hg]; omega, ?_⟩
    intro m hm hle
    refine habove m hm (lt_of_le_of_ne hle ?_)
    rintro rfl
    exact hd (by simpa [pool_size] using Int.natCast_dvd_natCast.mp hm)

/-- The example of C1: a dimension of 100 gives a work size of 112. -/
theorem C1_smallest_multiple_above_at_100 :
    100 + 16 < 2 ^ 31 ∧ globalWorkSize 100 = 112 ∧
      SmallestMultipleAbove 100 (globalWorkSize 100) ∧
      (SmallestMultipleAtLeast 100 (globalWorkSize 100) ↔ ¬ 16 ∣ 100) :=
  ⟨by norm_num, by decide, C1_smallest_multiple_above 100 (by norm_num)⟩

/-- C10: for a dimension `d` with `d + 16 < 2 ^ 31` the work size
`g = d + 16 - d % 16` is divisible by the local size 16 and `d < g ≤ d + 16`, so
every pixel index below `d` is inside the grid and at most 16 work-items per row
or column are outside the image. -/
theorem C10_work_size_covers (d : Nat) (h : d + 16 < 2 ^ 31) :
    globalWorkSize d = ((d + pool_size - d % pool_size : Nat) : Int) ∧
      (pool_size : Int) ∣ globalWorkSize d ∧
      (d : Int) < globalWorkSize d ∧ globalWorkSize d ≤ (d : Int) + 16 ∧
      (∀ i : Nat, i < d → (i : Int) < globalWorkSize d) ∧
      globalWorkSize d - (d : Int) ≤ 16 := by
  have h1 : d + 16 < 2147483648 := by simpa using h
  have hg := globalWorkSize_eq d h
  refine ⟨by simpa [pool_size] using hg, ?_, by rw [hg]; omega, by rw [hg]; omega, ?_,
    by rw [hg]; omega⟩
  · rw [hg]
    refine Int.natCast_dvd_natCast.mpr ?_
    unfold pool_size
    omega
  · intro i hi
    rw [hg]
    omega

/-- C10 at an 800 pixel wide image: the work size is 816. -/
theorem C10_work_size_covers_at_800 :
    800 + 16 < 2 ^ 31 ∧ globalWorkSize 800 = 816 ∧
      (pool_size : Int) ∣ globalWorkSize 800 ∧ (800 : Int) < globalWorkSize 800 :=
  ⟨by norm_num, by decide, (C10_work_size_covers 800 (by norm_num)).2.1,
    (C10_work_size_covers 800 (by norm_num)).2.2.1⟩

/-! ## Rejected iteration budgets -/

/-- C3: for every state and every value `v < 100`, `max_iterations(v)` returns
normally and changes nothing: the whole object is as before, in particular the
budget, the palette and the colour buffer, and no driver call is made. -/
theorem C3_small_budget_rejected (env : ColorEnv) (v : Nat) (s : OpenCLPBO)
    (h : v < 100) :
    max_iterations env v s = (s, .ok ()) ∧
      (max_iterations env v s).1.max_iterations_ = s.max_iterations_ ∧
      (max_iterations env v s).1.color_ = s.color_ ∧
      (max_iterations env v s).1.cl_color_ = s.cl_color_ ∧
      (max_iterations env v s).1.trace = s.trace := by
  have hm : max_iterations env v s = (s, .ok ()) := by
    unfold max_iterations
    rw [if_pos h]
  simp [hm]

/-- C3 at `v = 99` on a freshly constructed object. -/
theorem C3_small_budget_rejected_at_99 :
    (99 : Nat) < 100 ∧
      max_iterations ⟨0, 0⟩ 99 (OpenCLPBO.new .Poly) = (OpenCLPBO.new .Poly, .ok ()) :=
  ⟨by norm_num, (C3_small_budget_rejected ⟨0, 0⟩ 99 (OpenCLPBO.new .Poly) (by norm_num)).1⟩

/-! ## The not-bound check of `calculate` -/

/-- With both handles bound and no driver error, `calculate` returns the elapsed
time after the full sequence of driver calls. -/
theorem calculate_ok (env : CalcEnv) (s : OpenCLPBO)
    (hb : s.cl_buffer_ ≠ none) (hc : s.cl_color_ ≠ none)
    (h1 : env.writeError = 0) (h2 : env.acquireError = 0)
    (h3 : env.launchError = 0) (h4 : env.releaseError = 0) :
    (calculate env s).2 = .ok env.elapsed ∧
      (calculate env s).1.trace = s.trace ++
        [.writeView (if s.double_precision_ then s.viewd_ else s.viewf_)
            (if s.double_precision_ then 32 else 16),
          .glFinish, .clEnqueueAcquireGLObjects s.cl_buffer_,
          .setArgs s.image_width_ s.image_height_ s.max_iterations_,
          .enqueueNDRangeKernel (globalWorkSize s.image_width_)
            (globalWorkSize s.image_height_) 16 16,
          .clEnqueueReleaseGLObjects s.cl_buffer_, .queueFinish] := by
  simp [calculate, check_error, CL_SUCCESS, hb, hc, h1, h2, h3, h4, OpenCLPBO.emit,
    pool_size]

/-- C8: when the interop surface handle or the colour buffer handle is null,
`calculate` throws a not-bound error with code -1 and leaves the object and the
trace as they were, so no view upload, acquire or kernel launch is performed; when
both handles are non-null, whatever `calculate` throws is not a not-bound error. -/
theorem C8_calculate_not_bound (env : CalcEnv) (s : OpenCLPBO) :
    ((s.cl_buffer_ = none ∨ s.cl_color_ = none) →
        ∃ e, calculate env s = (s, .thrown e) ∧ e.notBound ∧ e.err = -1) ∧
      ((s.cl_buffer_ ≠ none ∧ s.cl_color_ ≠ none) →
        ∀ e, (calculate env s).2 = .thrown e → ¬ e.notBound) := by
  constructor
  · intro h
    by_cases hb : s.cl_buffer_ = none
    · exact ⟨⟨"Texture buffer not bound", -1⟩,
        by simp [calculate, check_error, CL_SUCCESS, hb], Or.inl rfl, rfl⟩
    · have hc : s.cl_color_ = none := h.resolve_left hb
      exact ⟨⟨"Color buffer not bound", -1⟩,
        by simp [calculate, check_error, CL_SUCCESS, hb, hc], Or.inr rfl, rfl⟩
  · rintro ⟨hb, hc⟩ e he
    have key : e.name = "Failed to allocate buffer" ∨ e.name = "AcquireGLObjects failed" ∨
        e.name = "enqueueNDRangeKernel failed" ∨ e.name = "ReleaseGLObjects failed" := by
      by_cases h1 : env.writeError = 0
      · by_cases h2 : env.acquireError = 0
        · by_cases h3 : env.launchError = 0
          · by_cases h4 : env.releaseError = 0
            · simp [calculate, check_error, CL_SUCCESS, hb, hc, h1, h2, h3, h4] at he
            · simp [calculate, check_error, CL_SUCCESS, hb, hc, h1, h2, h3, h4] at he
              simp [← he]
          · simp [calculate, check_error, CL_SUCCESS, hb, hc, h1, h2, h3] at he
            simp [← he]
        · simp [calculate, check_error, CL_SUCCESS, hb, hc, h1, h2] at he
          simp [← he]
      · simp [calculate, check_error, CL_SUCCESS, hb, hc, h1] at he
        simp [← he]
    unfold RuntimeError.notBound
    rcases key with h | h | h | h <;> rw [h] <;> decide

/-- C8 on a freshly constructed object, whose two handles are null, and on an
object with both handles bound whose acquire fails with code -5. -/
theorem C8_calculate_not_bound_examples :
    (∃ e, calculate ⟨0, 0, 0, 0, 7⟩ (OpenCLPBO.new .Poly)
        = (OpenCLPBO.new .Poly, .thrown e) ∧ e.notBound ∧ e.err = -1) ∧
      ¬ RuntimeError.notBound ⟨"AcquireGLObjects failed", -5⟩ :=
  ⟨(C8_calculate_not_bound ⟨0, 0, 0, 0, 7⟩ (OpenCLPBO.new .Poly)).1 (Or.inl rfl),
    (C8_calculate_not_bound ⟨0, -5, 0, 0, 7⟩
      { OpenCLPBO.new .Poly with
        cl_buffer_ := some ⟨1, 800, 600⟩, cl_color_ := some ⟨500, none⟩ }).2
      ⟨by simp, by simp⟩ ⟨"AcquireGLObjects failed", -5⟩
      (by simp [calculate, check_error, CL_SUCCESS])⟩

/-! ## Resize -/

/-- An `int` survives the round trip through a `cl_uint` member. -/
theorem toInt_toUInt (z : Int) (h1 : -2 ^ 31 ≤ z) (h2 : z < 2 ^ 31) :
    toInt (toUInt z) = z := by
  have h3 : -2147483648 ≤ z := by simpa using h1
  have h4 : z < 2147483648 := by simpa using h2
  unfold toInt toUInt
  split_ifs with h <;> omega

/-- C9: after `resize(w, h)`, whether it returns or throws, `cl_buffer_` is null or
the wrapper made from the current `textureId_` with image size `w × h`, and the
texture it wraps exists; a throwing resize leaves `cl_buffer_` null and a returning
one leaves it set. The driver calls of the resize begin with the release of the
old wrapper (when there is one), then the deletion of the old texture, and no
further release or deletion follows. -/
theorem C9_resize_wrapper (env : TextureEnv) (w h : Int) (s : OpenCLPBO)
    (hw : -2 ^ 31 ≤ w ∧ w < 2 ^ 31) (hh : -2 ^ 31 ≤ h ∧ h < 2 ^ 31) :
    ((resize env w h s).1.cl_buffer_ = none ∨
        (resize env w h s).1.cl_buffer_ = some ⟨(resize env w h s).1.textureId_, w, h⟩) ∧
      (∀ m, (resize env w h s).1.cl_buffer_ = some m →
        m.texture ∈ (resize env w h s).1.gl_textures) ∧
      (∀ e, (resize env w h s).2 = .thrown e → (resize env w h s).1.cl_buffer_ = none) ∧
      ((resize env w h s).2 = .ok () →
        (resize env w h s).1.cl_buffer_ = some ⟨(resize env w h s).1.textureId_, w, h⟩) ∧
      (resize env w h s).2 ≠ .undefined ∧
      ∃ rest, (resize env w h s).1.trace =
          s.trace ++ s.cl_buffer_.toList.map Event.clReleaseMemObject ++
            [.glDeleteTextures s.textureId_] ++ rest ∧
        ∀ ev ∈ rest, (∀ m, ev ≠ .clReleaseMemObject m) ∧ ∀ id, ev ≠ .glDeleteTextures id := by
  have hwi := toInt_toUInt w hw.1 hw.2
  have hhi := toInt_toUInt h hh.1 hh.2
  by_cases hg : env.glError = 0 <;> by_cases hc : env.clError = 0 <;>
    cases hb : s.cl_buffer_ <;>
    simp [resize, createTexture, deleteTexture, check_error, CL_SUCCESS, OpenCLPBO.emit,
      hg, hc, hb, hwi, hhi]

/-- C9 on a fresh object resized to 800 × 600 with no driver error: the wrapper is
the one of the new texture, with that size. -/
theorem C9_resize_wrapper_at_800_600 :
    ((-2 ^ 31 : Int) ≤ 800 ∧ (800 : Int) < 2 ^ 31) ∧
      ((-2 ^ 31 : Int) ≤ 600 ∧ (600 : Int) < 2 ^ 31) ∧
      (resize ⟨1, 0, 0⟩ 800 600 (OpenCLPBO.new .Poly)).2 = .ok () ∧
      (resize ⟨1, 0, 0⟩ 800 600 (OpenCLPBO.new .Poly)).1.cl_buffer_ =
        some ⟨(resize ⟨1, 0, 0⟩ 800 600 (OpenCLPBO.new .Poly)).1.textureId_, 800, 600⟩ :=
  ⟨by norm_num, by norm_num, by decide,
    (C9_resize_wrapper ⟨1, 0, 0⟩ 800 600 (OpenCLPBO.new .Poly) (by norm_num) (by norm_num)).2.2.2.1
      (by decide)⟩

/-! ## Colour table -/

/-- Each entry the loop writes is the closed form at `t = i / max_iterations_`. -/
theorem loop_entry_eq (s : OpenCLPBO) (i : Nat) :
    (match s.color_ with
      | .Poly => getColorPoly s i
      | .Trig => getColorTrig s i) =
      paletteEntry s.color_ ((i : ℚ) / (s.max_iterations_ : ℚ)) := by
  cases hc : s.color_ <;> simp only [getColorPoly, getColorTrig, paletteEntry] <;>
    congr 1 <;> ring

/-- While the budget fits an `int`, the loop started at counter `i` runs to the
end and appends the closed-form entries `i`, ..., `max_iterations_ - 1`. -/
theorem precomputeLoop_eq (s : OpenCLPBO) (hmax : s.max_iterations_ ≤ INT_MAX) :
    ∀ (k i : Nat) (table : List Float4), i + k = s.max_iterations_ →
      precomputeLoop s i table = some (table ++ (List.range' i k).map
        (fun j : Nat => paletteEntry s.color_ ((j : ℚ) / (s.max_iterations_ : ℚ)))) := by
  intro k
  induction k with
  | zero =>
    intro i table hik
    rw [precomputeLoop, if_neg (by omega)]
    simp
  | succ k ih =>
    intro i table hik
    have hlt : i < s.max_iterations_ := by omega
    have hle : i + 1 ≤ INT_MAX := by omega
    rw [precomputeLoop, if_pos hlt]
    simp only [if_pos hle]
    have hstep : (match s.color_ with
        | .Poly => table ++ [getColorPoly s i]
        | .Trig => table ++ [getColorTrig s i]) =
        table ++ [paletteEntry s.color_ ((i : ℚ) / (s.max_iterations_ : ℚ))] := by
      rw [← loop_entry_eq s i]
      cases s.color_ <;> rfl
    rw [hstep, ih (i + 1) _ (by omega), List.range'_succ]
    simp

/-- When the budget exceeds `INT_MAX`, the loop started at any counter value runs
into the overflow of its `int` counter. -/
theorem precomputeLoop_overflow (s : OpenCLPBO) (hmax : INT_MAX < s.max_iterations_) :
    ∀ (k i : Nat) (table : List Float4), i + k = INT_MAX →
      precomputeLoop s i table = none := by
  intro k
  induction k with
  | zero =>
    intro i table hik
    rw [precomputeLoop, if_pos (by omega)]
    simp only [if_neg (show ¬ i + 1 ≤ INT_MAX by omega)]
  | succ k ih =>
    intro i table hik
    rw [precomputeLoop, if_pos (by omega)]
    simp only [if_pos (show i + 1 ≤ INT_MAX by omega)]
    exact ih (i + 1) _ (by omega)

/-- A budget beyond `INT_MAX` is stored, and then the regeneration has no defined
outcome. -/
theorem max_iterations_beyond_int (env : ColorEnv) (v : Nat) (s : OpenCLPBO)
    (h : INT_MAX < v) :
    max_iterations env v s = ({ s with max_iterations_ := v }, .undefined) := by
  have hloop := precomputeLoop_overflow { s with max_iterations_ := v, color_ := s.color_ }
    h INT_MAX 0 [] (by simp)
  have hnot : ¬ v < 100 := by
    unfold INT_MAX at h
    omega
  simp [max_iterations, precomputeColor, hnot, hloop]

/-- C2 fails as stated: at the budget 2147483700 (reached from 500 in steps of 100)
the `int` loop counter of `precomputeColor` would have to pass `INT_MAX`; the call
has no defined outcome and no colour buffer is produced. -/
theorem C2_budget_beyond_int_fails :
    (max_iterations ⟨0, 0⟩ 2147483700 (OpenCLPBO.new .Poly)).2 = .undefined ∧
      (max_iterations ⟨0, 0⟩ 2147483700 (OpenCLPBO.new .Poly)).1.cl_color_ = none := by
  have h := max_iterations_beyond_int ⟨0, 0⟩ 2147483700 (OpenCLPBO.new .Poly)
    (by simp [INT_MAX])
  rw [h]
  exact ⟨rfl, rfl⟩

/-- C2, amended: for every budget `v` with `100 ≤ v ≤ 2 ^ 31 - 1` and either
palette, `max_iterations(v)` sets the budget to `v` and uploads a table of exactly
`v` entries whose entry `i` is the closed form of the selected palette at
`t = i / v`; when the buffer creation and the upload report no error, the call
returns normally and that table is the content of the colour buffer. -/
theorem C2_colour_table_closed_form (env : ColorEnv) (v : Nat) (s : OpenCLPBO)
    (hv : 100 ≤ v) (hmax : v ≤ 2 ^ 31 - 1) :
    ∃ table : List Float4,
      table.length = v ∧
      (∀ i : Nat, i < v → table[i]? = some (paletteEntry s.color_ ((i : ℚ) / (v : ℚ)))) ∧
      (max_iterations env v s).1.max_iterations_ = v ∧
      (max_iterations env v s).1.color_ = s.color_ ∧
      (max_iterations env v s).1.trace = s.trace ++ [.writeColor v table, .queueFinish] ∧
      (max_iterations env v s).2 ≠ .undefined ∧
      (env.createError = 0 → env.writeError = 0 →
        (max_iterations env v s).2 = .ok () ∧
        (max_iterations env v s).1.cl_color_ = some ⟨v, some table⟩) := by
  have hmax1 : v ≤ INT_MAX := by
    have : (2 : Nat) ^ 31 - 1 = 2147483647 := by norm_num
    unfold INT_MAX
    omega
  have hloop := precomputeLoop_eq { s with max_iterations_ := v, color_ := s.color_ }
    hmax1 v 0 [] (by simp)
  simp only [List.nil_append] at hloop
  refine ⟨(List.range' 0 v).map (fun j : Nat => paletteEntry s.color_ ((j : ℚ) / (v : ℚ))),
    by simp, ?_, ?_⟩
  · intro i hi
    simp [List.getElem?_map, List.getElem?_range', hi]
  · have hnot : ¬ v < 100 := by omega
    by_cases hw : env.writeError = 0 <;> by_cases hc : env.createError = 0 <;>
      simp [max_iterations, precomputeColor, hnot, hloop, check_error, CL_SUCCESS,
        OpenCLPBO.emit, hw, hc]

/-- C2, amended, at the budget 100 with palette `Trig` and no driver error. -/
theorem C2_colour_table_closed_form_at_100 :
    ((100 : Nat) ≤ 100 ∧ (100 : Nat) ≤ 2 ^ 31 - 1) ∧ ∃ table : List Float4,
      table.length = 100 ∧
      (∀ i : Nat, i < 100 → table[i]? = some (paletteEntry (OpenCLPBO.new .Trig).color_ ((i : ℚ) / ((100 : Nat) : ℚ)))) ∧
      (max_iterations ⟨0, 0⟩ 100 (OpenCLPBO.new .Trig)).1.max_iterations_ = 100 ∧
      (max_iterations ⟨0, 0⟩ 100 (OpenCLPBO.new .Trig)).1.color_ =
        (OpenCLPBO.new .Trig).color_ ∧
      (max_iterations ⟨0, 0⟩ 100 (OpenCLPBO.new .Trig)).1.trace =
        (OpenCLPBO.new .Trig).trace ++ [.writeColor 100 table, .queueFinish] ∧
      (max_iterations ⟨0, 0⟩ 100 (OpenCLPBO.new .Trig)).2 ≠ .undefined ∧
      ((⟨0, 0⟩ : ColorEnv).createError = 0 → (⟨0, 0⟩ : ColorEnv).writeError = 0 →
        (max_iterations ⟨0, 0⟩ 100 (OpenCLPBO.new .Trig)).2 = .ok () ∧
        (max_iterations ⟨0, 0⟩ 100 (OpenCLPBO.new .Trig)).1.cl_color_ =
          some ⟨100, some table⟩) :=
  ⟨by norm_num,
    C2_colour_table_closed_form ⟨0, 0⟩ 100 (OpenCLPBO.new .Trig) (by norm_num) (by norm_num)⟩

/-! ## Iteration budget -/

/-- The function `precomputeColor` does not touch the budget. -/
theorem precomputeColor_budget (env : ColorEnv) (c : Color) (s : OpenCLPBO) :
    (precomputeColor env c s).1.max_iterations_ = s.max_iterations_ := by
  cases hl : precomputeLoop { s with color_ := c } 0 [] with
  | none => simp [precomputeColor, hl]
  | some table =>
    by_cases hw : env.writeError = 0 <;>
      simp [precomputeColor, hl, check_error, CL_SUCCESS, OpenCLPBO.emit, hw]

/-- The budget after `max_iterations(val)`: unchanged below 100, `val` otherwise. -/
theorem max_iterations_budget (env : ColorEnv) (val : Nat) (s : OpenCLPBO) :
    (max_iterations env val s).1.max_iterations_ =
      if val < 100 then s.max_iterations_ else val := by
  unfold max_iterations
  split_ifs with h
  · rfl
  · rw [precomputeColor_budget]

/-- The `+` key calls `max_iterations` with the budget plus 100, in `cl_uint`. -/
theorem keyPressEvent_plus (env : ColorEnv) (v : GLView) :
    v.keyPressEvent env .Key_Plus =
      ({ v with pbo_ := (max_iterations env (uadd v.pbo_.max_iterations_ 100) v.pbo_).1 },
        (max_iterations env (uadd v.pbo_.max_iterations_ 100) v.pbo_).2) := rfl

/-- The `-` key calls `max_iterations` with the budget minus 100, in `cl_uint`. -/
theorem keyPressEvent_minus (env : ColorEnv) (v : GLView) :
    v.keyPressEvent env .Key_Minus =
      ({ v with pbo_ := (max_iterations env (usub v.pbo_.max_iterations_ 100) v.pbo_).1 },
        (max_iterations env (usub v.pbo_.max_iterations_ 100) v.pbo_).2) := rfl

/-- The budget of a view whose `pbo_` has been replaced. -/
theorem with_pbo_budget (v : GLView) (q : OpenCLPBO) :
    ({ v with pbo_ := q } : GLView).pbo_.max_iterations_ = q.max_iterations_ := rfl

/-- The budget of the view a key press leaves behind. -/
theorem proj_budget (v : GLView) (p : OpenCLPBO × Result Unit) :
    (({ v with pbo_ := p.1 } : GLView), p.2).1.pbo_.max_iterations_ = p.1.max_iterations_ :=
  rfl

/-- On a `cl_uint` budget that is at least 100, `- 100` does not wrap. -/
theorem usub_100 (b : Nat) (h1 : 100 ≤ b) (h2 : b < 4294967296) : usub b 100 = b - 100 := by
  unfold usub
  simp only [Nat.reduceMod]
  omega

/-- On a `cl_uint` budget, `+ 100` wraps exactly when the sum reaches `2 ^ 32`. -/
theorem uadd_100 (b : Nat) (h2 : b < 4294967296) :
    uadd b 100 = if b + 100 < 4294967296 then b + 100 else b + 100 - 4294967296 := by
  unfold uadd
  split_ifs <;> omega

/-- The budget after a `+` key press on a `cl_uint` budget. -/
theorem plus_budget (env : ColorEnv) (v : GLView) (h2 : v.pbo_.max_iterations_ < 4294967296) :
    (v.keyPressEvent env .Key_Plus).1.pbo_.max_iterations_ =
      if v.pbo_.max_iterations_ + 100 < 4294967296 then v.pbo_.max_iterations_ + 100
      else v.pbo_.max_iterations_ := by
  rw [keyPressEvent_plus]
  generalize hval : uadd v.pbo_.max_iterations_ 100 = val
  rw [uadd_100 _ h2] at hval
  rw [proj_budget, max_iterations_budget]
  split_ifs at hval ⊢ <;> omega

/-- The budget after a `-` key press on a `cl_uint` budget that is at least 100. -/
theorem minus_budget (env : ColorEnv) (v : GLView) (h1 : 100 ≤ v.pbo_.max_iterations_)
    (h2 : v.pbo_.max_iterations_ < 4294967296) :
    (v.keyPressEvent env .Key_Minus).1.pbo_.max_iterations_ =
      if v.pbo_.max_iterations_ < 200 then v.pbo_.max_iterations_
      else v.pbo_.max_iterations_ - 100 := by
  rw [keyPressEvent_minus]
  generalize hval : usub v.pbo_.max_iterations_ 100 = val
  rw [usub_100 _ h1 h2] at hval
  rw [proj_budget, max_iterations_budget]
  split_ifs <;> omega

/-- In every reachable state the budget is a `cl_uint` that is at least 100. -/
theorem reachable_budget (v : GLView) (hr : Reachable v) :
    100 ≤ v.pbo_.max_iterations_ ∧ v.pbo_.max_iterations_ < 4294967296 := by
  induction hr with
  | init c w h =>
    show (100 : Nat) ≤ 500 ∧ (500 : Nat) < 4294967296
    omega
  | @plus env v _ ih =>
    rw [plus_budget env v ih.2]
    split_ifs <;> omega
  | @minus env v _ ih =>
    rw [minus_budget env v ih.1 ih.2]
    split_ifs <;> omega
  | @call env val hval v _ ih =>
    have hval1 : val < 4294967296 := by simpa using hval
    rw [with_pbo_budget, max_iterations_budget]
    split_ifs <;> omega

/-- C4: in every state reachable from construction by `+` / `-` key presses and
`max_iterations(v)` calls, the budget is a `cl_uint` that is at least 100; `+` adds
exactly 100 or changes nothing (the latter exactly when the sum wraps around
`2 ^ 32`), `-` subtracts exactly 100 or changes nothing (the latter exactly when the
budget is below 200), and `-` at budget 100 leaves it at 100. -/
theorem C4_budget_floor (v : GLView) (hr : Reachable v) :
    100 ≤ v.pbo_.max_iterations_ ∧ v.pbo_.max_iterations_ < 2 ^ 32 ∧
      (∀ env : ColorEnv,
        ((v.keyPressEvent env .Key_Plus).1.pbo_.max_iterations_ = v.pbo_.max_iterations_ + 100 ∨
          (v.keyPressEvent env .Key_Plus).1.pbo_.max_iterations_ = v.pbo_.max_iterations_) ∧
        ((v.keyPressEvent env .Key_Plus).1.pbo_.max_iterations_ = v.pbo_.max_iterations_ ↔
          2 ^ 32 ≤ v.pbo_.max_iterations_ + 100)) ∧
      (∀ env : ColorEnv,
        ((v.keyPressEvent env .Key_Minus).1.pbo_.max_iterations_ + 100 = v.pbo_.max_iterations_ ∨
          (v.keyPressEvent env .Key_Minus).1.pbo_.max_iterations_ = v.pbo_.max_iterations_) ∧
        ((v.keyPressEvent env .Key_Minus).1.pbo_.max_iterations_ = v.pbo_.max_iterations_ ↔
          v.pbo_.max_iterations_ < 200)) ∧
      (v.pbo_.max_iterations_ = 100 → ∀ env : ColorEnv,
        (v.keyPressEvent env .Key_Minus).1.pbo_.max_iterations_ = 100) := by
  obtain ⟨h1, h2⟩ := reachable_budget v hr
  have hpow : (2 : Nat) ^ 32 = 4294967296 := by norm_num
  rw [hpow]
  refine ⟨h1, h2, ?_, ?_, ?_⟩
  · intro env
    rw [plus_budget env v h2]
    split_ifs <;> omega
  · intro env
    rw [minus_budget env v h1 h2]
    split_ifs <;> omega
  · intro h env
    rw [minus_budget env v h1 h2]
    split_ifs <;> omega

/-- C4 at the freshly constructed view: the budget is 500, `+` makes it 600 and `-`
makes it 400. -/
theorem C4_budget_floor_at_construction :
    Reachable (GLView.new .Poly 800 600) ∧
      (GLView.new .Poly 800 600).pbo_.max_iterations_ = 500 ∧
      100 ≤ (GLView.new .Poly 800 600).pbo_.max_iterations_ ∧
      (((GLView.new .Poly 800 600).keyPressEvent ⟨0, 0⟩ .Key_Plus).1.pbo_.max_iterations_ =
          (GLView.new .Poly 800 600).pbo_.max_iterations_ + 100 ∨
        ((GLView.new .Poly 800 600).keyPressEvent ⟨0, 0⟩ .Key_Plus).1.pbo_.max_iterations_ =
          (GLView.new .Poly 800 600).pbo_.max_iterations_) :=
  ⟨Reachable.init .Poly 800 600, rfl,
    (C4_budget_floor _ (Reachable.init .Poly 800 600)).1,
    ((C4_budget_floor _ (Reachable.init .Poly 800 600)).2.2.1 ⟨0, 0⟩).1⟩

/-! ## Aspect correction -/

/-- C5: for a stored rectangle with `minIm ≤ maxIm` and a viewport with
`width > height > 0`, the rectangle handed to `OpenCLPBO::setView` keeps the stored
real-axis edges and the stored imaginary-axis midpoint, and its imaginary-axis span
is the stored span times `height / width`, hence no larger than the stored span;
it is the rectangle the object stores in the view array of its precision. -/
theorem C5_wide_viewport (v : GLView) (hIm : v.minIm_ ≤ v.maxIm_)
    (hh : 0 < v.height) (hw : v.height < v.width) :
    v.setViewArgs.minRe = v.minRe_ ∧ v.setViewArgs.maxRe = v.maxRe_ ∧
      (v.setViewArgs.minIm + v.setViewArgs.maxIm) / 2 = (v.minIm_ + v.maxIm_) / 2 ∧
      v.setViewArgs.maxIm - v.setViewArgs.minIm =
        (v.maxIm_ - v.minIm_) * ((v.height : ℚ) / (v.width : ℚ)) ∧
      v.setViewArgs.maxIm - v.setViewArgs.minIm ≤ v.maxIm_ - v.minIm_ ∧
      (if v.pbo_.double_precision_ then v.setView.pbo_.viewd_ else v.setView.pbo_.viewf_) =
        v.setViewArgs := by
  have hwide : v.width > v.height := hw
  have hwpos : (0 : ℚ) < (v.width : ℚ) := by exact_mod_cast lt_trans hh hw
  have hhpos : (0 : ℚ) < (v.height : ℚ) := by exact_mod_cast hh
  have hlt : (v.height : ℚ) < (v.width : ℚ) := by exact_mod_cast hw
  have hspan : (v.setViewArgs.maxIm - v.setViewArgs.minIm) =
      (v.maxIm_ - v.minIm_) * ((v.height : ℚ) / (v.width : ℚ)) := by
    simp only [GLView.setViewArgs, if_pos hwide]
    field_simp
    ring
  refine ⟨by simp [GLView.setViewArgs, hwide], by simp [GLView.setViewArgs, hwide], ?_,
    hspan, ?_, ?_⟩
  · simp only [GLView.setViewArgs, if_pos hwide]
    ring
  · rw [hspan]
    have hfrac : (v.height : ℚ) / (v.width : ℚ) ≤ 1 := by
      rw [div_le_one hwpos]
      exact le_of_lt hlt
    have hnn : (0 : ℚ) ≤ v.maxIm_ - v.minIm_ := by linarith
    calc (v.maxIm_ - v.minIm_) * ((v.height : ℚ) / (v.width : ℚ))
        ≤ (v.maxIm_ - v.minIm_) * 1 := mul_le_mul_of_nonneg_left hfrac hnn
      _ = v.maxIm_ - v.minIm_ := by ring
  · cases hd : v.pbo_.double_precision_ <;> simp [GLView.setView, OpenCLPBO.setView, hd]

/-- C5 on the constructed rectangle `[-1,1] × [-1,1]` in a 200 × 100 viewport: the
imaginary interval handed over is `[-1/2, 1/2]`. -/
theorem C5_wide_viewport_at_200_100 :
    (GLView.new .Poly 200 100).minIm_ ≤ (GLView.new .Poly 200 100).maxIm_ ∧
      (0 : Int) < (GLView.new .Poly 200 100).height ∧
      (GLView.new .Poly 200 100).height < (GLView.new .Poly 200 100).width ∧
      (GLView.new .Poly 200 100).setViewArgs = ⟨-1, 1, -1 / 2, 1 / 2⟩ ∧
      (GLView.new .Poly 200 100).setViewArgs.maxIm -
        (GLView.new .Poly 200 100).setViewArgs.minIm ≤
        (GLView.new .Poly 200 100).maxIm_ - (GLView.new .Poly 200 100).minIm_ :=
  ⟨by norm_num [GLView.new], by norm_num [GLView.new], by norm_num [GLView.new],
    by norm_num [GLView.setViewArgs, GLView.new],
    (C5_wide_viewport (GLView.new .Poly 200 100) (by norm_num [GLView.new])
      (by norm_num [GLView.new]) (by norm_num [GLView.new])).2.2.2.2.1⟩

/-- A rectangle with equal, positive spans is handed over with the aspect ratio of
the viewport, in the wide branch and in the tall branch alike. -/
theorem aspect_of_equal_spans (v : GLView)
    (hpos : 0 < v.maxRe_ - v.minRe_)
    (heq : v.maxRe_ - v.minRe_ = v.maxIm_ - v.minIm_)
    (hw : 0 < v.width) (hh : 0 < v.height) :
    (v.setViewArgs.maxRe - v.setViewArgs.minRe) /
        (v.setViewArgs.maxIm - v.setViewArgs.minIm) = (v.width : ℚ) / (v.height : ℚ) := by
  have hwpos : (v.width : ℚ) ≠ 0 := by exact_mod_cast ne_of_gt hw
  have hhpos : (v.height : ℚ) ≠ 0 := by exact_mod_cast ne_of_gt hh
  have hs : v.maxIm_ - v.minIm_ ≠ 0 := by rw [← heq]; exact ne_of_gt hpos
  have hs2 : v.maxRe_ - v.minRe_ ≠ 0 := ne_of_gt hpos
  by_cases hwide : v.width > v.height
  · simp only [GLView.setViewArgs, if_pos hwide]
    have him : v.maxIm_ - (v.maxIm_ - v.minIm_ - (v.maxIm_ - v.minIm_) / (v.width : ℚ) *
        (v.height : ℚ)) * (1 / 2) - (v.minIm_ + (v.maxIm_ - v.minIm_ -
        (v.maxIm_ - v.minIm_) / (v.width : ℚ) * (v.height : ℚ)) * (1 / 2)) =
        (v.maxIm_ - v.minIm_) * (v.height : ℚ) / (v.width : ℚ) := by
      field_simp
      ring
    rw [him, heq]
    field_simp
    ring
  · simp only [GLView.setViewArgs, if_neg hwide]
    have hre : v.maxRe_ - (v.maxRe_ - v.minRe_ - (v.maxRe_ - v.minRe_) / (v.height : ℚ) *
        (v.width : ℚ)) * (1 / 2) - (v.minRe_ + (v.maxRe_ - v.minRe_ -
        (v.maxRe_ - v.minRe_) / (v.height : ℚ) * (v.width : ℚ)) * (1 / 2)) =
        (v.maxRe_ - v.minRe_) * (v.width : ℚ) / (v.height : ℚ) := by
      field_simp
      ring
    rw [hre, ← heq]
    field_simp
    ring

/-- The edges after a zoom of `wheelSteps delta` steps: each edge moves towards the
other by a twentieth of the span per step. -/
theorem wheelEvent_edges (delta : Int) (v : GLView) (h : v.maxRe_ ≠ v.minRe_) :
    (v.wheelEvent delta).minRe_ =
        v.minRe_ + (wheelSteps delta : ℚ) / 20 * (v.maxRe_ - v.minRe_) ∧
      (v.wheelEvent delta).maxRe_ =
        v.maxRe_ - (wheelSteps delta : ℚ) / 20 * (v.maxRe_ - v.minRe_) ∧
      (v.wheelEvent delta).minIm_ =
        v.minIm_ + (wheelSteps delta : ℚ) / 20 * (v.maxIm_ - v.minIm_) ∧
      (v.wheelEvent delta).maxIm_ =
        v.maxIm_ - (wheelSteps delta : ℚ) / 20 * (v.maxIm_ - v.minIm_) := by
  have hne : v.maxRe_ - v.minRe_ ≠ 0 := sub_ne_zero.mpr h
  refine ⟨?_, ?_, ?_, ?_⟩ <;> simp only [GLView.wheelEvent] <;> field_simp <;> ring

/-- A zoom keeps equal spans equal. -/
theorem wheelEvent_equal_spans (delta : Int) (v : GLView) (h : v.maxRe_ ≠ v.minRe_)
    (heq : v.maxRe_ - v.minRe_ = v.maxIm_ - v.minIm_) :
    (v.wheelEvent delta).maxRe_ - (v.wheelEvent delta).minRe_ =
      (v.wheelEvent delta).maxIm_ - (v.wheelEvent delta).minIm_ := by
  obtain ⟨e1, e2, e3, e4⟩ := wheelEvent_edges delta v h
  rw [e1, e2, e3, e4]
  linear_combination (1 - (wheelSteps delta : ℚ) / 10) * heq

/-- A mouse move translates the rectangle: both spans are as before. -/
theorem mouseMoveEvent_spans (x y : Int) (leftButton : Bool) (v : GLView) :
    (v.mouseMoveEvent x y leftButton).maxRe_ - (v.mouseMoveEvent x y leftButton).minRe_ =
        v.maxRe_ - v.minRe_ ∧
      (v.mouseMoveEvent x y leftButton).maxIm_ - (v.mouseMoveEvent x y leftButton).minIm_ =
        v.maxIm_ - v.minIm_ := by
  cases leftButton
  · exact ⟨rfl, rfl⟩
  · constructor <;> simp only [GLView.mouseMoveEvent, if_true] <;> ring

/-- The `C` key toggles the palette and regenerates the table with it. -/
theorem keyPressEvent_c (env : ColorEnv) (v : GLView) :
    v.keyPressEvent env .Key_C =
      ({ v with
          color_ := if v.color_ = .Poly then Color.Trig else Color.Poly
          pbo_ := (precomputeColor env
            (if v.color_ = .Poly then Color.Trig else Color.Poly) v.pbo_).1 },
        (precomputeColor env
          (if v.color_ = .Poly then Color.Trig else Color.Poly) v.pbo_).2) := rfl

/-- Replacing `pbo_` leaves the four edges of the rectangle as they are. -/
theorem with_pbo_edges (v : GLView) (p : OpenCLPBO × Result Unit) :
    (({ v with pbo_ := p.1 } : GLView), p.2).1.minRe_ = v.minRe_ ∧
      (({ v with pbo_ := p.1 } : GLView), p.2).1.maxRe_ = v.maxRe_ ∧
      (({ v with pbo_ := p.1 } : GLView), p.2).1.minIm_ = v.minIm_ ∧
      (({ v with pbo_ := p.1 } : GLView), p.2).1.maxIm_ = v.maxIm_ :=
  ⟨rfl, rfl, rfl, rfl⟩

/-- Replacing `color_` and `pbo_` leaves the four edges of the rectangle as they
are. -/
theorem with_color_pbo_edges (v : GLView) (c : Color) (p : OpenCLPBO × Result Unit) :
    (({ v with color_ := c, pbo_ := p.1 } : GLView), p.2).1.minRe_ = v.minRe_ ∧
      (({ v with color_ := c, pbo_ := p.1 } : GLView), p.2).1.maxRe_ = v.maxRe_ ∧
      (({ v with color_ := c, pbo_ := p.1 } : GLView), p.2).1.minIm_ = v.minIm_ ∧
      (({ v with color_ := c, pbo_ := p.1 } : GLView), p.2).1.maxIm_ = v.maxIm_ :=
  ⟨rfl, rfl, rfl, rfl⟩

/-- A key press leaves the four edges of the rectangle as they are. -/
theorem keyPressEvent_edges (env : ColorEnv) (k : Key) (v : GLView) :
    (v.keyPressEvent env k).1.minRe_ = v.minRe_ ∧ (v.keyPressEvent env k).1.maxRe_ = v.maxRe_ ∧
      (v.keyPressEvent env k).1.minIm_ = v.minIm_ ∧
      (v.keyPressEvent env k).1.maxIm_ = v.maxIm_ := by
  cases k
  · rw [keyPressEvent_plus]
    exact with_pbo_edges v (max_iterations env (uadd v.pbo_.max_iterations_ 100) v.pbo_)
  · rw [keyPressEvent_minus]
    exact with_pbo_edges v (max_iterations env (usub v.pbo_.max_iterations_ 100) v.pbo_)
  · rw [keyPressEvent_c]
    exact with_color_pbo_edges v (if v.color_ = .Poly then Color.Trig else Color.Poly)
      (precomputeColor env (if v.color_ = .Poly then Color.Trig else Color.Poly) v.pbo_)

/-- In every state in which the view holds a rectangle, the real span and the
imaginary span of the stored rectangle are equal. -/
theorem viewReachable_equal_spans (v : GLView) (hr : ViewReachable v) :
    v.maxRe_ - v.minRe_ = v.maxIm_ - v.minIm_ := by
  induction hr with
  | init c w h => norm_num [GLView.new]
  | @wheel delta v hspan _ ih => exact wheelEvent_equal_spans delta v hspan ih
  | @mouse x y b v _ _ ih =>
    obtain ⟨h1, h2⟩ := mouseMoveEvent_spans x y b v
    rw [h1, h2]
    exact ih
  | @key env k v _ ih =>
    obtain ⟨h1, h2, h3, h4⟩ := keyPressEvent_edges env k v
    rw [h1, h2, h3, h4]
    exact ih
  | @paint v _ ih => exact ih
  | @resized w h v _ ih => exact ih

/-- C6: in every state of the view reached from construction by wheel events, mouse
moves, key presses, repaints and resizes, if the stored rectangle has positive real
and imaginary spans and the viewport has `width > 0` and `height > 0`, then the
rectangle `GLView::setView` hands to the dispatcher has the aspect ratio of the
viewport, `(maxRe' - minRe') / (maxIm' - minIm') = width / height`, in the wide
branch (imaginary span shrunk) and in the tall branch (real span shrunk) alike. -/
theorem C6_aspect_matches_viewport (v : GLView) (hr : ViewReachable v)
    (hre : 0 < v.maxRe_ - v.minRe_) (him : 0 < v.maxIm_ - v.minIm_)
    (hw : 0 < v.width) (hh : 0 < v.height) :
    (v.setViewArgs.maxRe - v.setViewArgs.minRe) /
        (v.setViewArgs.maxIm - v.setViewArgs.minIm) = (v.width : ℚ) / (v.height : ℚ) ∧
      0 < v.setViewArgs.maxIm - v.setViewArgs.minIm ∧
      (v.width > v.height →
        v.setViewArgs.maxRe - v.setViewArgs.minRe = v.maxRe_ - v.minRe_ ∧
        v.setViewArgs.maxIm - v.setViewArgs.minIm =
          (v.maxIm_ - v.minIm_) * ((v.height : ℚ) / (v.width : ℚ))) ∧
      (¬ v.width > v.height →
        v.setViewArgs.maxIm - v.setViewArgs.minIm = v.maxIm_ - v.minIm_ ∧
        v.setViewArgs.maxRe - v.setViewArgs.minRe =
          (v.maxRe_ - v.minRe_) * ((v.width : ℚ) / (v.height : ℚ))) := by
  have hwq : (0 : ℚ) < (v.width : ℚ) := by exact_mod_cast hw
  have hhq : (0 : ℚ) < (v.height : ℚ) := by exact_mod_cast hh
  have hwpos : (v.width : ℚ) ≠ 0 := ne_of_gt hwq
  have hhpos : (v.height : ℚ) ≠ 0 := ne_of_gt hhq
  have hwide_eq : v.width > v.height →
      v.setViewArgs.maxRe - v.setViewArgs.minRe = v.maxRe_ - v.minRe_ ∧
      v.setViewArgs.maxIm - v.setViewArgs.minIm =
        (v.maxIm_ - v.minIm_) * ((v.height : ℚ) / (v.width : ℚ)) := by
    intro hwide
    constructor
    · simp only [GLView.setViewArgs, if_pos hwide]
    · simp only [GLView.setViewArgs, if_pos hwide]
      field_simp
      ring
  have htall_eq : ¬ v.width > v.height →
      v.setViewArgs.maxIm - v.setViewArgs.minIm = v.maxIm_ - v.minIm_ ∧
      v.setViewArgs.maxRe - v.setViewArgs.minRe =
        (v.maxRe_ - v.minRe_) * ((v.width : ℚ) / (v.height : ℚ)) := by
    intro hwide
    constructor
    · simp only [GLView.setViewArgs, if_neg hwide]
    · simp only [GLView.setViewArgs, if_neg hwide]
      field_simp
      ring
  refine ⟨aspect_of_equal_spans v hre (viewReachable_equal_spans v hr) hw hh, ?_,
    hwide_eq, htall_eq⟩
  by_cases hwide : v.width > v.height
  · rw [(hwide_eq hwide).2]
    exact mul_pos him (div_pos hhq hwq)
  · rw [(htall_eq hwide).1]
    exact him

/-- C6 on the view after one wheel step and a drag, in a 100 × 200 viewport (taller
than wide): the stored rectangle is still square and the aspect handed over is
100 / 200. -/
theorem C6_aspect_matches_viewport_after_zoom_and_drag :
    ViewReachable (((GLView.new .Poly 100 200).wheelEvent 120).mouseMoveEvent 10 20 true) ∧
      (((GLView.new .Poly 100 200).wheelEvent 120).mouseMoveEvent 10 20 true).setViewArgs =
        ⟨-63 / 100, 27 / 100, -18 / 25, 27 / 25⟩ ∧
      ((((GLView.new .Poly 100 200).wheelEvent 120).mouseMoveEvent 10 20 true).setViewArgs.maxRe -
          (((GLView.new .Poly 100 200).wheelEvent 120).mouseMoveEvent 10 20
            true).setViewArgs.minRe) /
        ((((GLView.new .Poly 100 200).wheelEvent 120).mouseMoveEvent 10 20
            true).setViewArgs.maxIm -
          (((GLView.new .Poly 100 200).wheelEvent 120).mouseMoveEvent 10 20
            true).setViewArgs.minIm) =
        (((((GLView.new .Poly 100 200).wheelEvent 120).mouseMoveEvent 10 20 true).width : Int) : ℚ) /
          (((((GLView.new .Poly 100 200).wheelEvent 120).mouseMoveEvent 10 20 true).height : Int) : ℚ) :=
  have hsteps : wheelSteps 120 = 1 := by decide
  have hr : ViewReachable
      (((GLView.new .Poly 100 200).wheelEvent 120).mouseMoveEvent 10 20 true) :=
    ViewReachable.mouse 10 20 true (by intro _; exact ⟨by decide, by decide⟩)
      (ViewReachable.wheel 120 (by norm_num [GLView.new]) (ViewReachable.init .Poly 100 200))
  ⟨hr,
    by norm_num [GLView.setViewArgs, GLView.mouseMoveEvent, GLView.wheelEvent, GLView.new,
      hsteps],
    (C6_aspect_matches_viewport _ hr
      (by norm_num [GLView.mouseMoveEvent, GLView.wheelEvent, GLView.new, hsteps])
      (by norm_num [GLView.mouseMoveEvent, GLView.wheelEvent, GLView.new, hsteps])
      (by decide) (by decide)).1⟩

/-! ## Zoom -/

/-- Every step count is produced by some wheel delta: 120 units per step. -/
theorem wheelSteps_of_multiple (n : Int) : wheelSteps (120 * n) = n := by
  unfold wheelSteps
  have h1 : (120 * n).tdiv 8 = 15 * n := by
    rw [show (120 : Int) * n = 8 * (15 * n) by ring]
    exact Int.mul_tdiv_cancel_left _ (by norm_num)
  rw [h1]
  exact Int.mul_tdiv_cancel_left _ (by norm_num)

/-- C7: for a stored rectangle with `maxRe ≠ minRe` and the step count
`n = wheelSteps delta` of any wheel event, the zoom keeps both centres and
multiplies the real span and the imaginary span by the same factor `1 - n / 10`;
the two spans stay in proportion, and their quotient is unchanged whenever that
factor is not zero. -/
theorem C7_zoom_about_centre (delta : Int) (v : GLView) (h : v.maxRe_ ≠ v.minRe_) :
    ((v.wheelEvent delta).minRe_ + (v.wheelEvent delta).maxRe_) / 2 =
        (v.minRe_ + v.maxRe_) / 2 ∧
      ((v.wheelEvent delta).minIm_ + (v.wheelEvent delta).maxIm_) / 2 =
        (v.minIm_ + v.maxIm_) / 2 ∧
      (v.wheelEvent delta).maxRe_ - (v.wheelEvent delta).minRe_ =
        (1 - 1 / 10 * (wheelSteps delta : ℚ)) * (v.maxRe_ - v.minRe_) ∧
      (v.wheelEvent delta).maxIm_ - (v.wheelEvent delta).minIm_ =
        (1 - 1 / 10 * (wheelSteps delta : ℚ)) * (v.maxIm_ - v.minIm_) ∧
      ((v.wheelEvent delta).maxRe_ - (v.wheelEvent delta).minRe_) * (v.maxIm_ - v.minIm_) =
        ((v.wheelEvent delta).maxIm_ - (v.wheelEvent delta).minIm_) * (v.maxRe_ - v.minRe_) ∧
      (1 - 1 / 10 * (wheelSteps delta : ℚ) ≠ 0 →
        ((v.wheelEvent delta).maxRe_ - (v.wheelEvent delta).minRe_) /
            ((v.wheelEvent delta).maxIm_ - (v.wheelEvent delta).minIm_) =
          (v.maxRe_ - v.minRe_) / (v.maxIm_ - v.minIm_)) := by
  obtain ⟨e1, e2, e3, e4⟩ := wheelEvent_edges delta v h
  have hre : (v.wheelEvent delta).maxRe_ - (v.wheelEvent delta).minRe_ =
      (1 - 1 / 10 * (wheelSteps delta : ℚ)) * (v.maxRe_ - v.minRe_) := by
    rw [e1, e2]; ring
  have him : (v.wheelEvent delta).maxIm_ - (v.wheelEvent delta).minIm_ =
      (1 - 1 / 10 * (wheelSteps delta : ℚ)) * (v.maxIm_ - v.minIm_) := by
    rw [e3, e4]; ring
  refine ⟨by rw [e1, e2]; ring, by rw [e3, e4]; ring, hre, him, by rw [hre, him]; ring, ?_⟩
  intro hf
  rw [hre, him, mul_div_mul_left _ _ hf]

/-- C7 on the constructed rectangle `[-1,1] × [-1,1]` after one wheel step (delta
120): the rectangle becomes `[-9/10, 9/10] × [-9/10, 9/10]`. -/
theorem C7_zoom_about_centre_one_step :
    (GLView.new .Poly 800 600).maxRe_ ≠ (GLView.new .Poly 800 600).minRe_ ∧
      wheelSteps 120 = 1 ∧
      ((GLView.new .Poly 800 600).wheelEvent 120).maxRe_ -
          ((GLView.new .Poly 800 600).wheelEvent 120).minRe_ =
        (1 - 1 / 10 * (wheelSteps 120 : ℚ)) *
          ((GLView.new .Poly 800 600).maxRe_ - (GLView.new .Poly 800 600).minRe_) ∧
      ((GLView.new .Poly 800 600).wheelEvent 120).maxIm_ -
          ((GLView.new .Poly 800 600).wheelEvent 120).minIm_ =
        (1 - 1 / 10 * (wheelSteps 120 : ℚ)) *
          ((GLView.new .Poly 800 600).maxIm_ - (GLView.new .Poly 800 600).minIm_) :=
  ⟨by norm_num [GLView.new], by decide,
    (C7_zoom_about_centre 120 (GLView.new .Poly 800 600) (by norm_num [GLView.new])).2.2.1,
    (C7_zoom_about_centre 120 (GLView.new .Poly 800 600) (by norm_num [GLView.new])).2.2.2.1⟩

end OpenCLFract
